import Mathlib

/-!
Verification of the b12 submission script (`src/main.py`).

The script is embedded shallowly:
* machine words are `Nat` with explicit `% 2 ^ 32` where 32-bit overflow matters,
* byte strings are `List Nat` (each element a byte value),
* the process environment, the wall clock and the HTTP transport are explicit
  parameters of the embedded `main` (`mainRun`),
* the observable behaviour of a run (exit code, stdout, stderr, issued HTTP
  requests) is collected in a `RunResult` record.
-/

/-! ## SHA-256 (model of Python's `hashlib.sha256`)

Straight transcription of FIPS 180-4, used by `hmac.new(..., hashlib.sha256)`
in `compute_signature`. -/

/-- The modulus 2^32 for 32-bit words. -/
def M32 : Nat := 4294967296

/-- Right-rotation of a 32-bit word (input expected `< 2 ^ 32`). -/
def rotr (n x : Nat) : Nat := (x / 2 ^ n + x % 2 ^ n * 2 ^ (32 - n)) % M32

/-- Logical right shift. -/
def shr (n x : Nat) : Nat := x / 2 ^ n

/-- SHA-256 `Ch` function; complement realised as xor with `2^32 - 1`. -/
def sha2ch (x y z : Nat) : Nat := (x &&& y) ^^^ ((x ^^^ 4294967295) &&& z)

/-- SHA-256 `Maj` function. -/
def sha2maj (x y z : Nat) : Nat := (x &&& y) ^^^ (x &&& z) ^^^ (y &&& z)

/-- SHA-256 Σ₀. -/
def bigSigma0 (x : Nat) : Nat := rotr 2 x ^^^ rotr 13 x ^^^ rotr 22 x

/-- SHA-256 Σ₁. -/
def bigSigma1 (x : Nat) : Nat := rotr 6 x ^^^ rotr 11 x ^^^ rotr 25 x

/-- SHA-256 σ₀. -/
def smallSigma0 (x : Nat) : Nat := rotr 7 x ^^^ rotr 18 x ^^^ shr 3 x

/-- SHA-256 σ₁. -/
def smallSigma1 (x : Nat) : Nat := rotr 17 x ^^^ rotr 19 x ^^^ shr 10 x

/-- The eight 32-bit working/state words of SHA-256. -/
structure Sha8 where
  a : Nat
  b : Nat
  c : Nat
  d : Nat
  e : Nat
  f : Nat
  g : Nat
  hw : Nat
deriving DecidableEq

/-- Initial hash value H⁽⁰⁾ (FIPS 180-4 §5.3.3). -/
def initH : Sha8 :=
  ⟨1779033703, 3144134277, 1013904242, 2773480762,
   1359893119, 2600822924, 528734635, 1541459225⟩

/-- Round constants K (FIPS 180-4 §4.2.2). -/
def K256 : List Nat :=
  [1116352408, 1899447441, 3049323471, 3921009573, 961987163,
   1508970993, 2453635748, 2870763221, 3624381080, 310598401,
   607225278, 1426881987, 1925078388, 2162078206, 2614888103,
   3248222580, 3835390401, 4022224774, 264347078, 604807628,
   770255983, 1249150122, 1555081692, 1996064986, 2554220882,
   2821834349, 2952996808, 3210313671, 3336571891, 3584528711,
   113926993, 338241895, 666307205, 773529912, 1294757372,
   1396182291, 1695183700, 1986661051, 2177026350, 2456956037,
   2730485921, 2820302411, 3259730800, 3345764771, 3516065817,
   3600352804, 4094571909, 275423344, 430227734, 506948616,
   659060556, 883997877, 958139571, 1322822218, 1537002063,
   1747873779, 1955562222, 2024104815, 2227730452, 2361852424,
   2428436474, 2756734187, 3204031479, 3329325298]

/-- Message-schedule extension: appends the next word `fuel` times. -/
def schedExt : Nat → List Nat → List Nat
  | 0, w => w
  | n + 1, w =>
    let g := fun i => w.getD (w.length - i) 0
    schedExt n (w ++ [(smallSigma1 (g 2) + g 7 + smallSigma0 (g 15) + g 16) % M32])

/-- The 64-word message schedule of a 16-word block. -/
def schedule (blk : List Nat) : List Nat := schedExt 48 blk

/-- One SHA-256 compression round. -/
def sha2round (st : Sha8) (kw : Nat × Nat) : Sha8 :=
  let t1 := (st.hw + bigSigma1 st.e + sha2ch st.e st.f st.g + kw.1 + kw.2) % M32
  let t2 := (bigSigma0 st.a + sha2maj st.a st.b st.c) % M32
  ⟨(t1 + t2) % M32, st.a, st.b, st.c, (st.d + t1) % M32, st.e, st.f, st.g⟩

/-- Addition of two words mod 2^32. -/
def addMod (x y : Nat) : Nat := (x + y) % M32

/-- Process one 512-bit (16-word) block. -/
def stepBlock (hs : Sha8) (blk : List Nat) : Sha8 :=
  let st := (K256.zip (schedule blk)).foldl sha2round hs
  ⟨addMod hs.a st.a, addMod hs.b st.b, addMod hs.c st.c, addMod hs.d st.d,
   addMod hs.e st.e, addMod hs.f st.f, addMod hs.g st.g, addMod hs.hw st.hw⟩

/-- Big-endian 8-byte encoding (of the bit length, mod 2^64). -/
def be8 (n : Nat) : List Nat :=
  [n / 2 ^ 56 % 256, n / 2 ^ 48 % 256, n / 2 ^ 40 % 256, n / 2 ^ 32 % 256,
   n / 2 ^ 24 % 256, n / 2 ^ 16 % 256, n / 2 ^ 8 % 256, n % 256]

/-- SHA-256 padding: `0x80`, zeros to 56 mod 64, then the 64-bit bit length. -/
def sha256Pad (msg : List Nat) : List Nat :=
  msg ++ 128 :: (List.replicate ((119 - msg.length % 64) % 64) 0 ++ be8 (8 * msg.length))

/-- Group bytes into big-endian 32-bit words (input length divisible by 4). -/
def bytesToWords : List Nat → List Nat
  | b0 :: b1 :: b2 :: b3 :: rest =>
    (b0 * 2 ^ 24 + b1 * 2 ^ 16 + b2 * 2 ^ 8 + b3) :: bytesToWords rest
  | _ => []

/-- Split a word list into 16-word chunks (`fuel` bounds the number of chunks). -/
def chunk16 : Nat → List Nat → List (List Nat)
  | 0, _ => []
  | _, [] => []
  | n + 1, w => w.take 16 :: chunk16 n (w.drop 16)

/-- SHA-256 of a byte string, as the final eight state words. -/
def sha256St (msg : List Nat) : Sha8 :=
  let ws := bytesToWords (sha256Pad msg)
  (chunk16 ws.length ws).foldl stepBlock initH

/-- Big-endian bytes of one 32-bit word. -/
def wordBytes (w : Nat) : List Nat :=
  [w / 2 ^ 24 % 256, w / 2 ^ 16 % 256, w / 2 ^ 8 % 256, w % 256]

/-- The state words as a list, in output order. -/
def sha8List (st : Sha8) : List Nat := [st.a, st.b, st.c, st.d, st.e, st.f, st.g, st.hw]

/-- SHA-256 digest as 32 bytes (Python `.digest()`). -/
def sha256Bytes (msg : List Nat) : List Nat := (sha8List (sha256St msg)).flatMap wordBytes

/-- Lowercase hexadecimal digit. -/
def hexDigitChar (n : Nat) : Char := Char.ofNat (if n < 10 then 48 + n else 87 + n)

/-- The eight lowercase hex digits of a 32-bit word. -/
def toHex8 (w : Nat) : List Char :=
  [hexDigitChar (w / 16 ^ 7 % 16), hexDigitChar (w / 16 ^ 6 % 16),
   hexDigitChar (w / 16 ^ 5 % 16), hexDigitChar (w / 16 ^ 4 % 16),
   hexDigitChar (w / 16 ^ 3 % 16), hexDigitChar (w / 16 ^ 2 % 16),
   hexDigitChar (w / 16 % 16), hexDigitChar (w % 16)]

/-- SHA-256 digest as lowercase hex (Python `.hexdigest()`). -/
def sha256Hexdigest (msg : List Nat) : String :=
  String.mk ((sha8List (sha256St msg)).flatMap toHex8)

/-! ## HMAC (model of Python's `hmac.new(key, msg, hashlib.sha256)`) -/

/-- HMAC-SHA256 hexdigest (RFC 2104, block size 64). -/
def hmacSha256Hexdigest (key msg : List Nat) : String :=
  let k0 := if 64 < key.length then sha256Bytes key else key
  let kp := k0 ++ List.replicate (64 - k0.length) 0
  sha256Hexdigest
    ((kp.map fun b => b ^^^ 0x5c) ++ sha256Bytes ((kp.map fun b => b ^^^ 0x36) ++ msg))

/-! ## UTF-8 encoding (model of Python's `str.encode("utf-8")`) -/

/-- UTF-8 bytes of one scalar value. -/
def utf8Char (c : Char) : List Nat :=
  let n := c.toNat
  if n < 128 then [n]
  else if n < 2048 then [192 + n / 64, 128 + n % 64]
  else if n < 65536 then [224 + n / 4096, 128 + n / 64 % 64, 128 + n % 64]
  else [240 + n / 262144, 128 + n / 4096 % 64, 128 + n / 64 % 64, 128 + n % 64]

/-- UTF-8 encoding of a string. -/
def utf8Encode (s : String) : List Nat := s.data.flatMap utf8Char

/-! ## `compute_signature` (src/main.py lines 29-31) -/

/-- Model of `compute_signature(secret, body)`:
`"sha256=" + hmac.new(secret.encode("utf-8"), body, hashlib.sha256).hexdigest()`. -/
def compute_signature (secret : String) (body : List Nat) : String :=
  "sha256=" ++ hmacSha256Hexdigest (utf8Encode secret) body

/-! ## Canonical JSON serialisation

Model of `json.dumps(payload, separators=(",", ":"), sort_keys=True,
ensure_ascii=False)` (src/main.py line 47) for a dict with string keys and
string values. -/

/-- JSON string escaping with `ensure_ascii=False`: only `"`, backslash and
control characters are escaped; everything else is emitted literally. -/
def escChar (c : Char) : List Char :=
  if c = '"' then ['\\', '"']
  else if c = '\\' then ['\\', '\\']
  else if c = '\x08' then ['\\', 'b']
  else if c = '\x0c' then ['\\', 'f']
  else if c = '\n' then ['\\', 'n']
  else if c = '\r' then ['\\', 'r']
  else if c = '\t' then ['\\', 't']
  else if c.toNat < 32 then
    ['\\', 'u', '0', '0', hexDigitChar (c.toNat / 16), hexDigitChar (c.toNat % 16)]
  else [c]

/-- A JSON string literal, as characters. -/
def encodeJStringL (l : List Char) : List Char := '"' :: (l.flatMap escChar ++ ['"'])

/-- One `"key":"value"` member (compact separators). -/
def renderMember (kv : String × String) : List Char :=
  encodeJStringL kv.1.data ++ ':' :: encodeJStringL kv.2.data

/-- Comma-joined members, no whitespace. -/
def renderMembers : List (String × String) → List Char
  | [] => []
  | [kv] => renderMember kv
  | kv :: rest => renderMember kv ++ ',' :: renderMembers rest

/-- Lexicographic comparison of key characters (Python `str` ordering on
code points, used by `sort_keys=True`). -/
def charListLe : List Char → List Char → Bool
  | [], _ => true
  | _ :: _, [] => false
  | a :: as, b :: bs => if a = b then charListLe as bs else decide (a < b)

/-- Ordered insertion by key. -/
def insortKV (kv : String × String) : List (String × String) → List (String × String)
  | [] => [kv]
  | x :: rest => if charListLe kv.1.data x.1.data then kv :: x :: rest else x :: insortKV kv rest

/-- Insertion sort of the members by key. -/
def sortKVs : List (String × String) → List (String × String)
  | [] => []
  | kv :: rest => insortKV kv (sortKVs rest)

/-- Model of `json.dumps` of a string-to-string dict: compact separators, sorted keys,
non-ASCII literal, UTF-8-ready text. -/
def pyJsonDumps (kvs : List (String × String)) : String :=
  String.mk ('\x7b' :: (renderMembers (sortKVs kvs) ++ ['\x7d']))

/-! ## JSON parsing

Model of `json.loads` (src/main.py line 77): strict decoder, values are
objects, arrays, strings, numbers (kept as their lexeme), `true`, `false`,
`null` and the Python extras `NaN` / `Infinity` / `-Infinity`.
Caveats kept out of scope (they cannot affect the claims): `\uXXXX` escapes
in the surrogate range, which CPython pairs up or stores as lone-surrogate
`str` values, are mapped to the NUL scalar here (Lean scalars exclude
surrogates). -/

/-- Parsed JSON values. Numbers keep their source lexeme (Python converts
them to `int`/`float`). -/
inductive Json where
  | null
  | bool (b : Bool)
  | num (lexeme : String)
  | str (s : String)
  | arr (elems : List Json)
  | obj (members : List (String × Json))

/-- JSON insignificant whitespace. -/
def isJsonWs (c : Char) : Bool := c = ' ' || c = '\t' || c = '\n' || c = '\r'

/-- Drop leading JSON whitespace. -/
def skipWs : List Char → List Char
  | [] => []
  | c :: r => if isJsonWs c then skipWs r else c :: r

/-- Value of one hexadecimal digit (either case), as in `\uXXXX` escapes. -/
def hexVal (c : Char) : Option Nat :=
  if '0' ≤ c ∧ c ≤ '9' then some (c.toNat - 48)
  else if 'a' ≤ c ∧ c ≤ 'f' then some (c.toNat - 87)
  else if 'A' ≤ c ∧ c ≤ 'F' then some (c.toNat - 55)
  else none

/-- Parse the inside of a JSON string literal (after the opening quote),
returning the decoded characters and the input after the closing quote.
Strict mode: unescaped control characters are rejected. -/
def parseJStringL : List Char → Option (List Char × List Char)
  | [] => none
  | c :: rest =>
    if c = '"' then some ([], rest)
    else if c = '\\' then
      match rest with
      | [] => none
      | e :: r =>
        if e = '"' then (parseJStringL r).map fun p => ('"' :: p.1, p.2)
        else if e = '\\' then (parseJStringL r).map fun p => ('\\' :: p.1, p.2)
        else if e = '/' then (parseJStringL r).map fun p => ('/' :: p.1, p.2)
        else if e = 'b' then (parseJStringL r).map fun p => ('\x08' :: p.1, p.2)
        else if e = 'f' then (parseJStringL r).map fun p => ('\x0c' :: p.1, p.2)
        else if e = 'n' then (parseJStringL r).map fun p => ('\n' :: p.1, p.2)
        else if e = 'r' then (parseJStringL r).map fun p => ('\r' :: p.1, p.2)
        else if e = 't' then (parseJStringL r).map fun p => ('\t' :: p.1, p.2)
        else if e = 'u' then
          match r with
          | h1 :: h2 :: h3 :: h4 :: r2 =>
            match hexVal h1, hexVal h2, hexVal h3, hexVal h4 with
            | some v1, some v2, some v3, some v4 =>
              (parseJStringL r2).map fun p =>
                (Char.ofNat (v1 * 4096 + v2 * 256 + v3 * 16 + v4) :: p.1, p.2)
            | _, _, _, _ => none
          | _ => none
        else none
    else if c.toNat < 32 then none
    else (parseJStringL rest).map fun p => (c :: p.1, p.2)

/-- Scan an optional fraction and exponent (consumed only when well-formed,
mirroring the `json` number regex). -/
def scanFracExp (l : List Char) : List Char × List Char :=
  let fr :=
    match l with
    | '.' :: r =>
      let ds := r.span Char.isDigit
      if ds.1.isEmpty then (([] : List Char), l) else ('.' :: ds.1, ds.2)
    | _ => ([], l)
  match fr.2 with
  | c :: r =>
    if c = 'e' ∨ c = 'E' then
      match r with
      | s :: r2 =>
        if s = '+' ∨ s = '-' then
          let ds := r2.span Char.isDigit
          if ds.1.isEmpty then fr else (fr.1 ++ c :: s :: ds.1, ds.2)
        else
          let ds := r.span Char.isDigit
          if ds.1.isEmpty then fr else (fr.1 ++ c :: ds.1, ds.2)
      | [] => fr
    else fr
  | [] => fr

/-- Parse an unsigned number lexeme: `0` or a nonzero digit run, then an
optional fraction/exponent. -/
def parseUNumber (l : List Char) : Option (List Char × List Char) :=
  match l with
  | c :: r =>
    if c = '0' then
      let fe := scanFracExp r
      some ('0' :: fe.1, fe.2)
    else if c.isDigit then
      let ds := r.span Char.isDigit
      let fe := scanFracExp ds.2
      some (c :: (ds.1 ++ fe.1), fe.2)
    else none
  | [] => none

/-- Parse a (possibly negative) JSON number into its lexeme. -/
def parseNumber (l : List Char) : Option (Json × List Char) :=
  match l with
  | '-' :: r => (parseUNumber r).map fun p => (.num (String.mk ('-' :: p.1)), p.2)
  | _ => (parseUNumber l).map fun p => (.num (String.mk p.1), p.2)

/-- Parse the members of an object, after the opening brace and leading
whitespace, given a value parser `pv`; `fuel` bounds the number of members
(instantiated with more than the input length, so it never runs out). -/
def parseMembers (pv : List Char → Option (Json × List Char)) :
    Nat → List Char → List (String × Json) → Option (Json × List Char)
  | 0, _, _ => none
  | fuel + 1, l, acc =>
    match l with
    | '"' :: rest =>
      match parseJStringL rest with
      | none => none
      | some (key, r1) =>
        match skipWs r1 with
        | ':' :: r2 =>
          match pv (skipWs r2) with
          | none => none
          | some (v, r3) =>
            match skipWs r3 with
            | ',' :: r4 => parseMembers pv fuel (skipWs r4) (acc ++ [(String.mk key, v)])
            | '\x7d' :: r4 => some (.obj (acc ++ [(String.mk key, v)]), r4)
            | _ => none
        | _ => none
    | _ => none

/-- Parse the elements of an array, after the opening bracket and leading
whitespace. -/
def parseElems (pv : List Char → Option (Json × List Char)) :
    Nat → List Char → List Json → Option (Json × List Char)
  | 0, _, _ => none
  | fuel + 1, l, acc =>
    match pv l with
    | none => none
    | some (v, r1) =>
      match skipWs r1 with
      | ',' :: r2 => parseElems pv fuel (skipWs r2) (acc ++ [v])
      | ']' :: r2 => some (.arr (acc ++ [v]), r2)
      | _ => none

/-- Parse one JSON value; `fuel` bounds the nesting depth (instantiated with
more than the input length, so it never runs out). -/
def parseValue : Nat → List Char → Option (Json × List Char)
  | 0, _ => none
  | fuel + 1, l =>
    match l with
    | 'n' :: 'u' :: 'l' :: 'l' :: rest => some (.null, rest)
    | 't' :: 'r' :: 'u' :: 'e' :: rest => some (.bool true, rest)
    | 'f' :: 'a' :: 'l' :: 's' :: 'e' :: rest => some (.bool false, rest)
    | 'N' :: 'a' :: 'N' :: rest => some (.num "NaN", rest)
    | 'I' :: 'n' :: 'f' :: 'i' :: 'n' :: 'i' :: 't' :: 'y' :: rest => some (.num "Infinity", rest)
    | '-' :: 'I' :: 'n' :: 'f' :: 'i' :: 'n' :: 'i' :: 't' :: 'y' :: rest =>
      some (.num "-Infinity", rest)
    | '"' :: rest =>
      match parseJStringL rest with
      | some (cs, r) => some (.str (String.mk cs), r)
      | none => none
    | '\x7b' :: rest =>
      match skipWs rest with
      | '\x7d' :: r => some (.obj [], r)
      | l2 => parseMembers (parseValue fuel) (l2.length + 1) l2 []
    | '[' :: rest =>
      match skipWs rest with
      | ']' :: r => some (.arr [], r)
      | l2 => parseElems (parseValue fuel) (l2.length + 1) l2 []
    | c :: rest => if c = '-' ∨ c.isDigit then parseNumber (c :: rest) else none
    | [] => none

/-- Model of `json.loads`: skip leading whitespace, parse one value, require that only
whitespace follows. -/
def jsonParse (s : String) : Option Json :=
  match parseValue (s.length + 1) (skipWs s.data) with
  | some (v, rest) => if skipWs rest = [] then some v else none
  | none => none

/-- Lookup in a parsed object with Python `dict` semantics: a later duplicate
key wins. -/
def dictGet (kvs : List (String × Json)) (k : String) : Option Json :=
  match kvs with
  | [] => none
  | (k2, v) :: rest =>
    match dictGet rest k with
    | some r => some r
    | none => if k2 = k then some v else none

/-! ## Python `str()` of a parsed JSON value

`main` prints the receipt with an f-string, i.e. `str(receipt)`. String,
boolean, null and integer receipts are rendered exactly; for floats the
lexeme stands in for CPython's shortest-repr, and for containers the
element-level `repr` quoting is simplified (accurate for printable strings
without quotes) - the receipt is treated opaquely by the spec. -/

/-- A single-quote character as a string (Python quotes names with it). -/
def pyQuote : String := String.mk ['\x27']

/-- Whether a number lexeme denotes a Python `float` (else `int`). -/
def numIsFloatLex (lex : String) : Bool :=
  lex.data.any (fun c => c == '.' || c == 'e' || c == 'E') ||
    lex == "NaN" || lex == "Infinity" || lex == "-Infinity"

/-- Numeric value of a digit run. -/
def digitsToNat : List Char → Nat := List.foldl (fun a c => a * 10 + (c.toNat - 48)) 0

/-- Model of `str(int(lexeme))`: canonical decimal (so `-0` prints as `0`). -/
def intLexStr (lex : String) : String :=
  match lex.data with
  | '-' :: ds => if digitsToNat ds = 0 then "0" else "-" ++ Nat.repr (digitsToNat ds)
  | ds => Nat.repr (digitsToNat ds)

/-- Model of `str(float(lexeme))`, with the lexeme standing in for repr normalisation. -/
def pyFloatStr (lex : String) : String :=
  if lex == "NaN" then "nan"
  else if lex == "Infinity" then "inf"
  else if lex == "-Infinity" then "-inf"
  else lex

/-- Python `str()` of a parsed JSON number. -/
def pyNumStr (lex : String) : String :=
  if numIsFloatLex lex then pyFloatStr lex else intLexStr lex

/-- Python `repr` of a string (quoting simplified, see section comment). -/
def pyReprStr (s : String) : String := pyQuote ++ s ++ pyQuote

mutual

/-- Python `repr` of a parsed JSON value. -/
def pyRepr : Json → String
  | .null => "None"
  | .bool true => "True"
  | .bool false => "False"
  | .num lex => pyNumStr lex
  | .str s => pyReprStr s
  | .arr xs => "[" ++ pyReprElems xs ++ "]"
  | .obj kvs => "\x7b" ++ pyReprMembers kvs ++ "\x7d"

/-- Comma-joined element reprs. -/
def pyReprElems : List Json → String
  | [] => ""
  | [x] => pyRepr x
  | x :: xs => pyRepr x ++ ", " ++ pyReprElems xs

/-- Comma-joined `key: value` reprs. -/
def pyReprMembers : List (String × Json) → String
  | [] => ""
  | [(k, v)] => pyReprStr k ++ ": " ++ pyRepr v
  | (k, v) :: rest => pyReprStr k ++ ": " ++ pyRepr v ++ ", " ++ pyReprMembers rest

end

/-- Python `str()` of a parsed JSON value (differs from `repr` only on
strings at top level). -/
def pyStr : Json → String
  | .null => "None"
  | .bool true => "True"
  | .bool false => "False"
  | .num lex => pyNumStr lex
  | .str s => s
  | .arr xs => "[" ++ pyReprElems xs ++ "]"
  | .obj kvs => "\x7b" ++ pyReprMembers kvs ++ "\x7d"

/-! ## Timestamps (src/main.py lines 12-15)

`datetime.now(timezone.utc)` is modelled by passing the current instant as an
explicit `DT` record; a real instant satisfies `1 <= month <= 12`,
`hour < 24`, `minute < 60`, `second < 60`, `microsecond < 1000000`,
`year <= 9999`. -/

/-- A UTC wall-clock instant, as `datetime`'s components. -/
structure DT where
  year : Nat
  month : Nat
  day : Nat
  hour : Nat
  minute : Nat
  second : Nat
  microsecond : Nat
deriving DecidableEq

/-- Decimal digit character (of `n mod 10`). -/
def digitChar (n : Nat) : Char := Char.ofNat (48 + n % 10)

/-- Two-digit zero-padded field. -/
def pad2 (n : Nat) : List Char := [digitChar (n / 10), digitChar n]

/-- Four-digit zero-padded year. -/
def pad4 (n : Nat) : List Char :=
  [digitChar (n / 1000), digitChar (n / 100), digitChar (n / 10), digitChar n]

/-- Six-digit zero-padded microseconds. -/
def pad6 (n : Nat) : List Char :=
  [digitChar (n / 100000), digitChar (n / 10000), digitChar (n / 1000),
   digitChar (n / 100), digitChar (n / 10), digitChar n]

/-- Aware-UTC `datetime.isoformat()`: `YYYY-MM-DDTHH:MM:SS[.ffffff]+00:00`.
With the default `timespec` the fractional part is six digits, and is omitted
entirely when `microsecond == 0`. -/
def isoformatL (d : DT) : List Char :=
  pad4 d.year ++ '-' :: pad2 d.month ++ '-' :: pad2 d.day ++
    'T' :: pad2 d.hour ++ ':' :: pad2 d.minute ++ ':' :: pad2 d.second ++
    (if d.microsecond = 0 then [] else '.' :: pad6 d.microsecond) ++
    '+' :: '0' :: '0' :: ':' :: '0' :: '0' :: []

/-- Python `str.replace("+00:00", "Z")`: left-to-right, all occurrences. -/
def replacePlus : List Char → List Char
  | '+' :: '0' :: '0' :: ':' :: '0' :: '0' :: r2 => 'Z' :: replacePlus r2
  | c :: rest => c :: replacePlus rest
  | [] => []

/-- Model of `iso8601_timestamp()`: truncate microseconds to whole milliseconds, format
with `isoformat()`, replace `+00:00` by `Z`. -/
def iso8601_timestamp (now : DT) : String :=
  String.mk (replacePlus (isoformatL { now with microsecond := now.microsecond / 1000 * 1000 }))

/-! ## Payload (src/main.py lines 18-26) -/

/-- The six-field submission payload. -/
structure Payload where
  timestamp : String
  name : String
  email : String
  resume_link : String
  repository_link : String
  action_run_link : String
deriving DecidableEq

/-- The payload given the value of `B12_ACTION_RUN_LINK`; optional variables
fall back to their literal defaults. -/
def mkPayload (env : String → Option String) (now : DT) (link : String) : Payload where
  timestamp := iso8601_timestamp now
  name := (env "B12_NAME").getD "Donovan Piper"
  email := (env "B12_EMAIL").getD "do.piper.eng@outlook.com"
  resume_link := (env "B12_RESUME_LINK").getD "https://donovan-piper.netlify.app/"
  repository_link := (env "B12_REPOSITORY_LINK").getD "https://github.com/novancore"
  action_run_link := link

/-- Model of `build_payload()`: `none` models the `KeyError` raised by
`os.environ["B12_ACTION_RUN_LINK"]` when the variable is absent. -/
def build_payload (env : String → Option String) (now : DT) : Option Payload :=
  (env "B12_ACTION_RUN_LINK").map (mkPayload env now)

/-- The payload dict as key-value pairs, in source (insertion) order. -/
def payloadItems (p : Payload) : List (String × String) :=
  [("timestamp", p.timestamp), ("name", p.name), ("email", p.email),
   ("resume_link", p.resume_link), ("repository_link", p.repository_link),
   ("action_run_link", p.action_run_link)]

/-! ## The full run (src/main.py lines 34-91)

`main` is embedded as a function of the environment, the clock instant and
the HTTP transport. The transport maps the (single possible) request to its
outcome: a decoded 2xx body, an `HTTPError` (status, reason, optional
readable body) or a `URLError`. -/

/-- One issued HTTP request. -/
structure HttpRequest where
  url : String
  method : String
  headers : List (String × String)
  data : List Nat
deriving DecidableEq

/-- Outcome of `urllib.request.urlopen`. -/
inductive HttpOutcome where
  | ok (body : String)
  | httpError (code : Nat) (reason : String) (body : Option String)
  | urlError (msg : String)

/-- Observable behaviour of one run: exit code, stdout lines, stderr lines,
issued requests, and whether the run died of an uncaught exception (in which
case stderr is abstracted to the traceback's final line). -/
structure RunResult where
  exitCode : Nat
  stdout : List String
  stderr : List String
  requests : List HttpRequest
  crashed : Bool
deriving DecidableEq

/-- The request `main` constructs (src/main.py lines 52-60): fixed URL, POST,
content-type and signature headers, body = the canonical JSON bytes, with the
signature computed over exactly those bytes. -/
def theRequest (secret link : String) (env : String → Option String) (now : DT) : HttpRequest :=
  let bodyBytes := utf8Encode (pyJsonDumps (payloadItems (mkPayload env now link)))
  { url := "https://b12.io/apply/submission"
    method := "POST"
    headers := [("Content-Type", "application/json; charset=utf-8"),
                ("X-Signature-256", compute_signature secret bodyBytes)]
    data := bodyBytes }

/-- Message of `str(KeyError("B12_ACTION_RUN_LINK"))`, carrying the quoted key. -/
def missingVarMsg : String :=
  "Missing required environment variable: " ++ pyQuote ++ "B12_ACTION_RUN_LINK" ++ pyQuote

/-- Python type name of a parsed JSON value. -/
def pyTypeName : Json → String
  | .null => "NoneType"
  | .bool _ => "bool"
  | .num lex => if numIsFloatLex lex then "float" else "int"
  | .str _ => "str"
  | .arr _ => "list"
  | .obj _ => "dict"

/-- Final line of the traceback of `parsed.get(...)` on a non-dict. -/
def attrErrorLine (v : Json) : String :=
  "AttributeError: " ++ pyQuote ++ pyTypeName v ++ pyQuote ++ " object has no attribute " ++
    pyQuote ++ "get" ++ pyQuote

/-- The embedded `main`. -/
def mainRun (env : String → Option String) (now : DT)
    (transport : HttpRequest → HttpOutcome) : RunResult :=
  match env "B12_SIGNING_SECRET" with
  | none => ⟨1, [], ["Missing B12_SIGNING_SECRET"], [], false⟩
  | some secret =>
    if secret = "" then ⟨1, [], ["Missing B12_SIGNING_SECRET"], [], false⟩
    else
      match env "B12_ACTION_RUN_LINK" with
      | none => ⟨1, [], [missingVarMsg], [], false⟩
      | some link =>
        let req := theRequest secret link env now
        match transport req with
        | .urlError msg => ⟨1, [], ["Request failed: " ++ msg], [req], false⟩
        | .httpError code reason rbody =>
          ⟨1, [], ("HTTP error: " ++ Nat.repr code ++ " " ++ reason) :: rbody.toList,
           [req], false⟩
        | .ok respBody =>
          match jsonParse respBody with
          | none => ⟨1, [], ["Invalid JSON response from server", respBody], [req], false⟩
          | some (.obj kvs) =>
            match dictGet kvs "success", dictGet kvs "receipt" with
            | some (.bool true), some r =>
              ⟨0, ["Submission receipt: " ++ pyStr r], [], [req], false⟩
            | _, _ =>
              ⟨1, [], ["Submission failed or unexpected response", respBody], [req], false⟩
          | some v => ⟨1, [], [attrErrorLine v], [req], true⟩

/-! ## Concrete inputs used by the witnesses -/

/-- Environment with nothing set. -/
def envNone : String → Option String := fun _ => none

/-- Environment with the signing secret set to the empty string only. -/
def envEmptySecret : String → Option String :=
  fun k => if k = "B12_SIGNING_SECRET" then some "" else none

/-- Environment with a non-empty secret but no action-run link. -/
def envNoLink : String → Option String :=
  fun k => if k = "B12_SIGNING_SECRET" then some "s3cr3t" else none

/-- Environment with both required variables set. -/
def envGood : String → Option String := fun k =>
  if k = "B12_SIGNING_SECRET" then some "s3cr3t"
  else if k = "B12_ACTION_RUN_LINK" then some "https://runs.example/1" else none

/-- Environment with a non-empty secret and an empty action-run link. -/
def envEmptyLink : String → Option String := fun k =>
  if k = "B12_SIGNING_SECRET" then some "s3cr3t"
  else if k = "B12_ACTION_RUN_LINK" then some "" else none

/-- A fixed instant. -/
def dt0 : DT := ⟨2026, 1, 2, 3, 4, 5, 6789⟩

/-- Transport answering every request with a 2xx body. -/
def trOk (body : String) : HttpRequest → HttpOutcome := fun _ => .ok body

/-- Transport answering every request with an HTTP 500. -/
def trHttpErr : HttpRequest → HttpOutcome :=
  fun _ => .httpError 500 "Internal Server Error" (some "server exploded")

/-! ## General lemmas -/

/-- Rebuilding a string from its characters is the identity. -/
theorem stringMk_data (s : String) : String.mk s.data = s := rfl

/-- Decoding the scalar value of a character re-creates the character. -/
theorem charOfNat_toNat (c : Char) : Char.ofNat c.toNat = c := by
  have h : c.toNat.isValidChar := c.valid
  simp [Char.ofNat, h]
  rfl

/-- Hex digits decode back to their value. -/
theorem hexVal_hexDigitChar : ∀ n < 16, hexVal (hexDigitChar n) = some n := by decide

/-- Hex digits are lowercase-hex characters. -/
theorem hexDigitChar_mem : ∀ n < 16, hexDigitChar n ∈ ("0123456789abcdef").data := by decide

/-- All characters of a word's hex rendering are lowercase-hex characters. -/
theorem mem_toHex8 (w : Nat) : ∀ c ∈ toHex8 w, c ∈ ("0123456789abcdef").data := by
  intro c hc
  simp only [toHex8, List.mem_cons, List.not_mem_nil, or_false] at hc
  rcases hc with rfl | rfl | rfl | rfl | rfl | rfl | rfl | rfl <;>
    exact hexDigitChar_mem _ (Nat.mod_lt _ (by norm_num))

/-- A SHA-256 hexdigest has 64 characters. -/
theorem sha256Hexdigest_length (msg : List Nat) : (sha256Hexdigest msg).length = 64 := rfl

/-- A SHA-256 hexdigest consists of lowercase-hex characters. -/
theorem mem_sha256Hexdigest (msg : List Nat) :
    ∀ c ∈ (sha256Hexdigest msg).data, c ∈ ("0123456789abcdef").data := by
  intro c hc
  have h : (sha256Hexdigest msg).data = (sha8List (sha256St msg)).flatMap toHex8 := rfl
  rw [h, List.mem_flatMap] at hc
  obtain ⟨w, _, hcw⟩ := hc
  exact mem_toHex8 w c hcw

/-- An HMAC hexdigest is the hexdigest of the outer hash input. -/
theorem hmac_is_sha (key msg : List Nat) :
    ∃ m2, hmacSha256Hexdigest key msg = sha256Hexdigest m2 := ⟨_, rfl⟩

/-- An HMAC-SHA256 hexdigest has 64 characters. -/
theorem hmacSha256Hexdigest_length (key msg : List Nat) :
    (hmacSha256Hexdigest key msg).length = 64 := by
  obtain ⟨m2, h⟩ := hmac_is_sha key msg
  rw [h]; exact sha256Hexdigest_length m2

/-- An HMAC-SHA256 hexdigest consists of lowercase-hex characters. -/
theorem mem_hmacSha256Hexdigest (key msg : List Nat) :
    ∀ c ∈ (hmacSha256Hexdigest key msg).data, c ∈ ("0123456789abcdef").data := by
  obtain ⟨m2, h⟩ := hmac_is_sha key msg
  rw [h]; exact mem_sha256Hexdigest m2

/-- The model reproduces the SHA-256 test vector for the empty message. -/
theorem sha256_empty_vector :
    sha256Hexdigest [] =
      "e3b0c44298fc1c149afbf4c8996fb92427ae41e4649b934ca495991b7852b855" := by decide

/-- The model reproduces the SHA-256 test vector for `"abc"`. -/
theorem sha256_abc_vector :
    sha256Hexdigest (utf8Encode "abc") =
      "ba7816bf8f01cfea414140de5dae2223b00361a396177a9cb410ff61f20015ad" := by decide

set_option maxRecDepth 16384 in
/-- The model reproduces the standard HMAC-SHA256 test vector. -/
theorem hmac_sha256_vector :
    hmacSha256Hexdigest (utf8Encode "key")
        (utf8Encode "The quick brown fox jumps over the lazy dog") =
      "f7bc83f430538424b13298e6aa6fb143ef4d59a14946175997479dbc2d1a3cd8" := by decide

/-! ## Round-trip lemmas for the serializer and parser -/

/-- Parsing an escaped string body recovers the original characters and
stops exactly at the closing quote. -/
theorem parseJStringL_escape (l tail : List Char) :
    parseJStringL (l.flatMap escChar ++ '"' :: tail) = some (l, tail) := by
  induction l with
  | nil =>
    show parseJStringL ('"' :: tail) = some ([], tail)
    unfold parseJStringL
    simp
  | cons c l ih =>
    show parseJStringL ((escChar c ++ l.flatMap escChar) ++ '"' :: tail) = _
    rw [List.append_assoc]
    by_cases h1 : c = '"'
    · subst h1
      show parseJStringL ('\\' :: '"' :: (l.flatMap escChar ++ '"' :: tail)) = _
      unfold parseJStringL
      simp [ih]
    · by_cases h2 : c = '\\'
      · subst h2
        show parseJStringL ('\\' :: '\\' :: (l.flatMap escChar ++ '"' :: tail)) = _
        unfold parseJStringL
        simp [ih]
      · by_cases h3 : c = '\x08'
        · subst h3
          show parseJStringL ('\\' :: 'b' :: (l.flatMap escChar ++ '"' :: tail)) = _
          unfold parseJStringL
          simp [ih]
        · by_cases h4 : c = '\x0c'
          · subst h4
            show parseJStringL ('\\' :: 'f' :: (l.flatMap escChar ++ '"' :: tail)) = _
            unfold parseJStringL
            simp [ih]
          · by_cases h5 : c = '\n'
            · subst h5
              show parseJStringL ('\\' :: 'n' :: (l.flatMap escChar ++ '"' :: tail)) = _
              unfold parseJStringL
              simp [ih]
            · by_cases h6 : c = '\r'
              · subst h6
                show parseJStringL ('\\' :: 'r' :: (l.flatMap escChar ++ '"' :: tail)) = _
                unfold parseJStringL
                simp [ih]
              · by_cases h7 : c = '\t'
                · subst h7
                  show parseJStringL ('\\' :: 't' :: (l.flatMap escChar ++ '"' :: tail)) = _
                  unfold parseJStringL
                  simp [ih]
                · by_cases h8 : c.toNat < 32
                  · have hesc : escChar c =
                        ['\\', 'u', '0', '0', hexDigitChar (c.toNat / 16),
                         hexDigitChar (c.toNat % 16)] := by
                      simp [escChar, h1, h2, h3, h4, h5, h6, h7, h8]
                    rw [hesc]
                    show parseJStringL ('\\' :: 'u' :: '0' :: '0' ::
                        hexDigitChar (c.toNat / 16) :: hexDigitChar (c.toNat % 16) ::
                        (l.flatMap escChar ++ '"' :: tail)) = _
                    unfold parseJStringL
                    simp [ih, hexVal_hexDigitChar _ (show c.toNat / 16 < 16 by omega),
                          hexVal_hexDigitChar _ (show c.toNat % 16 < 16 by omega)]
                    rw [show hexVal '0' = some 0 from by decide]
                    show some (Char.ofNat
                        (0 * 4096 + 0 * 256 + c.toNat / 16 * 16 + c.toNat % 16) :: l, tail) =
                      some (c :: l, tail)
                    rw [show 0 * 4096 + 0 * 256 + c.toNat / 16 * 16 + c.toNat % 16 = c.toNat
                          from by omega,
                        charOfNat_toNat]
                  · have hesc : escChar c = [c] := by
                      simp [escChar, h1, h2, h3, h4, h5, h6, h7, h8]
                    rw [hesc]
                    show parseJStringL (c :: (l.flatMap escChar ++ '"' :: tail)) = _
                    unfold parseJStringL
                    simp [h1, h2, h8, ih]

/-- Parsing a serialized string value yields exactly that string. -/
theorem parseValue_str (fuel : Nat) (v : String) (tail : List Char) :
    parseValue (fuel + 1) ('"' :: (v.data.flatMap escChar ++ '"' :: tail)) =
      some (.str v, tail) := by
  have h1 : parseValue (fuel + 1) ('"' :: (v.data.flatMap escChar ++ '"' :: tail)) =
      match parseJStringL (v.data.flatMap escChar ++ '"' :: tail) with
      | some (cs, r) => some (.str (String.mk cs), r)
      | none => none := rfl
  rw [h1, parseJStringL_escape]

/-- A quote is not whitespace. -/
theorem skipWs_quote (r : List Char) : skipWs ('"' :: r) = '"' :: r := by
  unfold skipWs; simp [isJsonWs]

/-- A colon is not whitespace. -/
theorem skipWs_colon (r : List Char) : skipWs (':' :: r) = ':' :: r := by
  unfold skipWs; simp [isJsonWs]

/-- A closing brace is not whitespace. -/
theorem skipWs_rbrace (r : List Char) : skipWs ('\x7d' :: r) = '\x7d' :: r := by
  unfold skipWs; simp [isJsonWs]

/-- Unfolding of `parseMembers` at a key quote. -/
theorem parseMembers_quote (pv : List Char → Option (Json × List Char)) (fuel : Nat)
    (X : List Char) (acc : List (String × Json)) :
    parseMembers pv (fuel + 1) ('"' :: X) acc =
      match parseJStringL X with
      | none => none
      | some (key, r1) =>
        match skipWs r1 with
        | ':' :: r2 =>
          match pv (skipWs r2) with
          | none => none
          | some (v, r3) =>
            match skipWs r3 with
            | ',' :: r4 => parseMembers pv fuel (skipWs r4) (acc ++ [(String.mk key, v)])
            | '\x7d' :: r4 => some (.obj (acc ++ [(String.mk key, v)]), r4)
            | _ => none
        | _ => none := rfl

/-- Rendered members start with a quote, so leading whitespace-skipping is
the identity on them. -/
theorem skipWs_renderMembers (q : String × String) (qs : List (String × String))
    (Z : List Char) :
    skipWs (renderMembers (q :: qs) ++ Z) = renderMembers (q :: qs) ++ Z := by
  cases qs <;> simp [renderMembers, renderMember, encodeJStringL, skipWs_quote]

/-- Parsing rendered members recovers the original pairs (as string values)
and consumes the closing brace. -/
theorem parseMembers_render (pv : List Char → Option (Json × List Char))
    (hpv : ∀ (v : String) (t : List Char),
      pv ('"' :: (v.data.flatMap escChar ++ '"' :: t)) = some (.str v, t)) :
    ∀ (kvs : List (String × String)) (fuel : Nat) (acc : List (String × Json))
      (tail : List Char), kvs ≠ [] → kvs.length ≤ fuel →
      parseMembers pv fuel (renderMembers kvs ++ '\x7d' :: tail) acc =
        some (.obj (acc ++ kvs.map fun kv => (kv.1, Json.str kv.2)), tail) := by
  intro kvs
  induction kvs with
  | nil => intro fuel acc tail hne _; exact absurd rfl hne
  | cons kv kvs ih =>
    intro fuel acc tail _ hlen
    obtain ⟨f, rfl⟩ : ∃ f, fuel = f + 1 := ⟨fuel - 1, by simp at hlen; omega⟩
    cases kvs with
    | nil =>
      have hshape : renderMembers [kv] ++ '\x7d' :: tail =
          '"' :: (kv.1.data.flatMap escChar ++ '"' ::
            (':' :: ('"' :: (kv.2.data.flatMap escChar ++ '"' :: ('\x7d' :: tail))))) := by
        simp [renderMembers, renderMember, encodeJStringL]
      rw [hshape, parseMembers_quote, parseJStringL_escape]
      simp [skipWs_colon, skipWs_quote, skipWs_rbrace, hpv kv.2 ('\x7d' :: tail),
            stringMk_data]
    | cons k2 ks =>
      have hshape : renderMembers (kv :: k2 :: ks) ++ '\x7d' :: tail =
          '"' :: (kv.1.data.flatMap escChar ++ '"' ::
            (':' :: ('"' :: (kv.2.data.flatMap escChar ++ '"' ::
              (',' :: (renderMembers (k2 :: ks) ++ '\x7d' :: tail)))))) := by
        simp [renderMembers, renderMember, encodeJStringL]
      rw [hshape, parseMembers_quote, parseJStringL_escape]
      simp only [skipWs_colon, skipWs_quote,
        hpv kv.2 (',' :: (renderMembers (k2 :: ks) ++ '\x7d' :: tail))]
      have hws : skipWs (',' :: (renderMembers (k2 :: ks) ++ '\x7d' :: tail)) =
          ',' :: (renderMembers (k2 :: ks) ++ '\x7d' :: tail) := by
        unfold skipWs; simp [isJsonWs]
      rw [hws]
      show parseMembers pv f (skipWs (renderMembers (k2 :: ks) ++ '\x7d' :: tail))
        (acc ++ [(String.mk kv.1.data, Json.str kv.2)]) = _
      rw [skipWs_renderMembers, ih f (acc ++ [(String.mk kv.1.data, Json.str kv.2)]) tail
        (List.cons_ne_nil _ _) (by simp at hlen ⊢; omega)]
      simp

/-- Ordered insertion never produces the empty list. -/
theorem insortKV_ne_nil (kv : String × String) (l : List (String × String)) :
    insortKV kv l ≠ [] := by
  cases l with
  | nil => simp [insortKV]
  | cons x r => simp only [insortKV]; split <;> simp

/-- Key-sorting preserves nonemptiness. -/
theorem sortKVs_ne_nil (kvs : List (String × String)) (h : kvs ≠ []) : sortKVs kvs ≠ [] := by
  cases kvs with
  | nil => exact absurd rfl h
  | cons kv r => simp only [sortKVs]; exact insortKV_ne_nil _ _

/-- A rendered member takes at least five characters. -/
theorem renderMember_len (kv : String × String) : 5 ≤ (renderMember kv).length := by
  simp [renderMember, encodeJStringL]
  omega

/-- Rendered members are at least as long as the member list. -/
theorem renderMembers_len : ∀ (q : String × String) (qs : List (String × String)),
    (q :: qs).length ≤ (renderMembers (q :: qs)).length := by
  intro q qs
  induction qs generalizing q with
  | nil => have := renderMember_len q; simp [renderMembers]; omega
  | cons k2 ks ih =>
    have h1 := renderMember_len q
    have h2 := ih k2
    simp [renderMembers] at h2 ⊢
    omega

/-- Rendered members start with a quote character. -/
theorem renderMembers_cons_shape (q : String × String) (qs : List (String × String))
    (Z : List Char) : ∃ R, renderMembers (q :: qs) ++ Z = '"' :: R := by
  cases qs with
  | nil =>
    exact ⟨q.1.data.flatMap escChar ++ '"' :: ':' :: '"' ::
      (q.2.data.flatMap escChar ++ '"' :: Z),
      by simp [renderMembers, renderMember, encodeJStringL]⟩
  | cons k2 ks =>
    exact ⟨q.1.data.flatMap escChar ++ '"' :: ':' :: '"' ::
      (q.2.data.flatMap escChar ++ '"' :: ',' :: (renderMembers (k2 :: ks) ++ Z)),
      by simp [renderMembers, renderMember, encodeJStringL]⟩

/-- An object body that starts with a quote is not the empty object. -/
theorem matchObj_quote (R : List Char) (F : List Char → Option (Json × List Char)) :
    (match ('"' :: R : List Char) with
     | '\x7d' :: r => some (Json.obj [], r)
     | l2 => F l2) = F ('"' :: R) := by simp

/-- Round trip: parsing the canonical serialization of a nonempty
string-to-string dict recovers exactly the sorted members. -/
theorem jsonParse_pyJsonDumps (kvs : List (String × String)) (hne : kvs ≠ []) :
    jsonParse (pyJsonDumps kvs) =
      some (.obj ((sortKVs kvs).map fun kv => (kv.1, Json.str kv.2))) := by
  obtain ⟨q, qs, hq⟩ : ∃ q qs, sortKVs kvs = q :: qs := by
    rcases h : sortKVs kvs with _ | ⟨q, qs⟩
    · exact absurd h (sortKVs_ne_nil kvs hne)
    · exact ⟨q, qs, rfl⟩
  have hdata : (pyJsonDumps kvs).data =
      '\x7b' :: (renderMembers (sortKVs kvs) ++ ['\x7d']) := rfl
  have hlen2 : (pyJsonDumps kvs).length =
      (renderMembers (sortKVs kvs) ++ ['\x7d']).length + 1 := by
    show ((pyJsonDumps kvs).data).length = _
    rw [hdata]; simp
  unfold jsonParse
  rw [hdata, hlen2, hq]
  have hsw : skipWs ('\x7b' :: (renderMembers (q :: qs) ++ ['\x7d'])) =
      '\x7b' :: (renderMembers (q :: qs) ++ ['\x7d']) := by
    unfold skipWs; simp [isJsonWs]
  rw [hsw]
  have hpv1 : parseValue ((renderMembers (q :: qs) ++ ['\x7d']).length + 1 + 1)
      ('\x7b' :: (renderMembers (q :: qs) ++ ['\x7d'])) =
      (match skipWs (renderMembers (q :: qs) ++ ['\x7d']) with
       | '\x7d' :: r => some (Json.obj [], r)
       | l2 => parseMembers (parseValue ((renderMembers (q :: qs) ++ ['\x7d']).length + 1))
           (l2.length + 1) l2 []) := rfl
  rw [hpv1, skipWs_renderMembers]
  obtain ⟨R, hR⟩ := renderMembers_cons_shape q qs ['\x7d']
  rw [hR, matchObj_quote]
  rw [← hR]
  have hfits : (q :: qs).length ≤ (renderMembers (q :: qs) ++ ['\x7d']).length + 1 := by
    have := renderMembers_len q qs
    simp at this ⊢
    omega
  rw [parseMembers_render (parseValue ((renderMembers (q :: qs) ++ ['\x7d']).length + 1))
        (fun v t => parseValue_str _ v t) (q :: qs)
        ((renderMembers (q :: qs) ++ ['\x7d']).length + 1) [] []
        (List.cons_ne_nil _ _) hfits]
  simp [show skipWs ([] : List Char) = [] from rfl]

/-- Sorting the payload members puts the six keys in lexicographic order. -/
theorem sortKVs_payloadItems (p : Payload) :
    sortKVs (payloadItems p) =
      [("action_run_link", p.action_run_link), ("email", p.email), ("name", p.name),
       ("repository_link", p.repository_link), ("resume_link", p.resume_link),
       ("timestamp", p.timestamp)] := rfl

/-! ## Timestamp lemmas -/

/-- The scalar value of a digit character. -/
theorem digitChar_toNat (n : Nat) : (digitChar n).toNat = 48 + n % 10 := by
  have h : (48 + n % 10).isValidChar := Or.inl (by omega)
  simp [digitChar, Char.ofNat, h]
  rfl

/-- Digit characters are never a plus sign. -/
theorem digitChar_ne_plus (n : Nat) : digitChar n ≠ '+' := by
  intro h
  have h2 := congrArg Char.toNat h
  rw [digitChar_toNat] at h2
  have h3 : ('+').toNat = 43 := by decide
  rw [h3] at h2
  omega

/-- Symmetric form of `digitChar_ne_plus`, as a simp lemma. -/
theorem plus_ne_digitChar (n : Nat) : ¬ ('+' = digitChar n) := fun h =>
  digitChar_ne_plus n h.symm

/-- Replacement passes over characters other than the plus sign. -/
theorem replacePlus_cons_ne (c : Char) (hc : c ≠ '+') (xs : List Char) :
    replacePlus (c :: xs) = c :: replacePlus xs := by
  rw [replacePlus.eq_def]
  split
  · rename_i hh
    injection hh with h1 _
    exact absurd h1 hc
  · rename_i hh
    injection hh with h1 h2
    rw [h1, h2]
  · rename_i hh
    exact List.noConfusion hh

/-- Replacing `+00:00` after a plus-free body rewrites exactly the suffix. -/
theorem replacePlus_append (l : List Char) (h : ∀ c ∈ l, c ≠ '+') :
    replacePlus (l ++ '+' :: '0' :: '0' :: ':' :: '0' :: '0' :: []) = l ++ ['Z'] := by
  induction l with
  | nil => rfl
  | cons c l ih =>
    rw [List.cons_append, replacePlus_cons_ne c (h c (by simp)) _,
        ih (fun c hc => h c (by simp [hc])), List.cons_append]

/-- The date-time body of an isoformat string contains no plus sign. -/
theorem no_plus_in_iso_body (d : DT) (mu : Nat) :
    ∀ c ∈ pad4 d.year ++ '-' :: pad2 d.month ++ '-' :: pad2 d.day ++
      'T' :: pad2 d.hour ++ ':' :: pad2 d.minute ++ ':' :: pad2 d.second ++
      (if mu = 0 then [] else '.' :: pad6 mu), c ≠ '+' := by
  intro c hc
  intro hcc
  subst hcc
  by_cases hmu : mu = 0 <;>
    simp [hmu, pad4, pad2, pad6, plus_ne_digitChar] at hc

/-! ## Run-level lemmas -/

/-- Whenever the configuration checks pass, the run issues exactly one
request, whatever the transport answers. -/
theorem mainRun_requests_eq (env : String → Option String) (now : DT)
    (transport : HttpRequest → HttpOutcome) (s link : String)
    (hs : env "B12_SIGNING_SECRET" = some s) (hs2 : s ≠ "")
    (hl : env "B12_ACTION_RUN_LINK" = some link) :
    (mainRun env now transport).requests = [theRequest s link env now] := by
  simp only [mainRun, hs, hl]
  rw [if_neg hs2]
  split
  · rfl
  · rfl
  · split
    · rfl
    · split <;> rfl
    · rfl

/-! ## The claims -/

/-- Claim C1: for every secret string and body byte-sequence,
`compute_signature` returns the string `sha256=` followed by the 64-character
lowercase hexadecimal HMAC-SHA256 digest of the body under the UTF-8 encoding
of the secret, and recomputing it from the same pair yields the same string. -/
theorem compute_signature_spec (secret : String) (body : List Nat) :
    (compute_signature secret body).data =
        "sha256=".data ++ (hmacSha256Hexdigest (utf8Encode secret) body).data ∧
      (hmacSha256Hexdigest (utf8Encode secret) body).length = 64 ∧
      (∀ c ∈ (hmacSha256Hexdigest (utf8Encode secret) body).data,
        c ∈ ("0123456789abcdef").data) ∧
      compute_signature secret body = compute_signature secret body :=
  ⟨rfl, hmacSha256Hexdigest_length _ _, mem_hmacSha256Hexdigest _ _, rfl⟩

set_option maxRecDepth 8192 in
/-- Claim C2: serializing a payload record is deterministic, parsing the
serialized JSON back recovers the original field values exactly (with the six
keys in sorted order), and on a concrete payload the output is the compact,
key-sorted, non-ASCII-literal byte string. -/
theorem payload_serialization_spec (p : Payload) :
    pyJsonDumps (payloadItems p) = pyJsonDumps (payloadItems p) ∧
    jsonParse (pyJsonDumps (payloadItems p)) =
      some (Json.obj
        [("action_run_link", .str p.action_run_link), ("email", .str p.email),
         ("name", .str p.name), ("repository_link", .str p.repository_link),
         ("resume_link", .str p.resume_link), ("timestamp", .str p.timestamp)]) ∧
    pyJsonDumps (payloadItems
        ⟨"2026-01-02T03:04:05.006000Z", "Ann", "a@é.example", "https://r.example/",
         "https://g.example/", "https://runs.example/1"⟩) =
      "\x7b\"action_run_link\":\"https://runs.example/1\",\"email\":\"a@é.example\",\"name\":\"Ann\",\"repository_link\":\"https://g.example/\",\"resume_link\":\"https://r.example/\",\"timestamp\":\"2026-01-02T03:04:05.006000Z\"\x7d" := by
  refine ⟨rfl, ?_, by decide⟩
  rw [jsonParse_pyJsonDumps (payloadItems p) (by simp [payloadItems]),
      sortKVs_payloadItems]
  rfl

/-- Claim C3 (counterexample): at microsecond 999999 the code emits six
sub-second digits (`.999000`, microsecond rendering of the floored value),
not the three-digit millisecond form `.999` the claim describes; and at
microsecond 500 it emits no sub-second digits at all instead of `.000`. -/
theorem iso8601_timestamp_cx :
    iso8601_timestamp ⟨2026, 10, 12, 1, 2, 3, 999999⟩ = "2026-10-12T01:02:03.999000Z" ∧
    iso8601_timestamp ⟨2026, 10, 12, 1, 2, 3, 999999⟩ ≠ "2026-10-12T01:02:03.999Z" ∧
    iso8601_timestamp ⟨2026, 10, 12, 1, 2, 3, 500⟩ = "2026-10-12T01:02:03Z" ∧
    iso8601_timestamp ⟨2026, 10, 12, 1, 2, 3, 500⟩ ≠ "2026-10-12T01:02:03.000Z" := by
  refine ⟨by decide, by decide, by decide, by decide⟩

/-- Claim C3 (amended): the timestamp ends in exactly the literal `Z` and
never contains `+` (hence no `+00:00` offset); its sub-second value is the
instant's microseconds truncated (floored) to whole milliseconds; when that
value is zero the string carries no sub-second digits, and otherwise exactly
six sub-second digits (the floored value, microsecond-padded). -/
theorem iso8601_timestamp_spec (d : DT) :
    iso8601_timestamp d =
      String.mk (pad4 d.year ++ '-' :: pad2 d.month ++ '-' :: pad2 d.day ++
        'T' :: pad2 d.hour ++ ':' :: pad2 d.minute ++ ':' :: pad2 d.second ++
        (if d.microsecond / 1000 * 1000 = 0 then []
         else '.' :: pad6 (d.microsecond / 1000 * 1000)) ++ ['Z']) ∧
      '+' ∉ (iso8601_timestamp d).data := by
  have hiso : isoformatL { d with microsecond := d.microsecond / 1000 * 1000 } =
      (pad4 d.year ++ '-' :: pad2 d.month ++ '-' :: pad2 d.day ++
        'T' :: pad2 d.hour ++ ':' :: pad2 d.minute ++ ':' :: pad2 d.second ++
        (if d.microsecond / 1000 * 1000 = 0 then []
         else '.' :: pad6 (d.microsecond / 1000 * 1000))) ++
        '+' :: '0' :: '0' :: ':' :: '0' :: '0' :: [] := by
    simp [isoformatL, List.append_assoc]
  have hmain : iso8601_timestamp d =
      String.mk (pad4 d.year ++ '-' :: pad2 d.month ++ '-' :: pad2 d.day ++
        'T' :: pad2 d.hour ++ ':' :: pad2 d.minute ++ ':' :: pad2 d.second ++
        (if d.microsecond / 1000 * 1000 = 0 then []
         else '.' :: pad6 (d.microsecond / 1000 * 1000)) ++ ['Z']) := by
    show String.mk (replacePlus (isoformatL _)) = _
    rw [hiso, replacePlus_append _ (no_plus_in_iso_body d _)]
  refine ⟨hmain, ?_⟩
  intro hmem
  rw [hmain] at hmem
  by_cases hmu : d.microsecond / 1000 * 1000 = 0 <;>
    simp [hmu, pad4, pad2, pad6, plus_ne_digitChar] at hmem

/-- Claim C4: with `B12_SIGNING_SECRET` unset, the run exits 1, writes the
missing-secret message to stderr, prints nothing to stdout, and issues no
request - whatever the other variables, the clock and the transport are. -/
theorem missing_secret_spec (env : String → Option String) (now : DT)
    (transport : HttpRequest → HttpOutcome) (h : env "B12_SIGNING_SECRET" = none) :
    mainRun env now transport = ⟨1, [], ["Missing B12_SIGNING_SECRET"], [], false⟩ := by
  simp [mainRun, h]

/-- Witness for C4 at a concrete environment. -/
theorem missing_secret_witness :
    envNone "B12_SIGNING_SECRET" = none ∧
    mainRun envNone dt0 (trOk "x") = ⟨1, [], ["Missing B12_SIGNING_SECRET"], [], false⟩ :=
  ⟨rfl, missing_secret_spec envNone dt0 (trOk "x") rfl⟩

/-- Claim C5 (counterexample): with `B12_SIGNING_SECRET` set (to the empty
string) and `B12_ACTION_RUN_LINK` absent, the process exits 1 but its error
message is the missing-secret message, which does not name
`B12_ACTION_RUN_LINK` - refuting the claim as stated. -/
theorem empty_secret_naming_cx :
    (envEmptySecret "B12_SIGNING_SECRET").isSome = true ∧
    envEmptySecret "B12_ACTION_RUN_LINK" = none ∧
    (mainRun envEmptySecret dt0 (trOk "x")).exitCode = 1 ∧
    (mainRun envEmptySecret dt0 (trOk "x")).stderr = ["Missing B12_SIGNING_SECRET"] ∧
    ¬ ∃ line ∈ (mainRun envEmptySecret dt0 (trOk "x")).stderr,
        "B12_ACTION_RUN_LINK".data <:+: line.data := by
  refine ⟨by decide, by decide, by decide, by decide, by decide⟩

/-- Claim C5 (amended): with `B12_SIGNING_SECRET` set to a non-empty string,
an absent `B12_ACTION_RUN_LINK` fails the run with exit 1 and a message
naming that variable; when it is present, every optional variable that is
unset takes its literal default verbatim in the payload, and the run proceeds
to issue its one request. -/
theorem action_link_spec (env : String → Option String) (now : DT)
    (transport : HttpRequest → HttpOutcome) (s : String)
    (hs : env "B12_SIGNING_SECRET" = some s) (hs2 : s ≠ "") :
    (env "B12_ACTION_RUN_LINK" = none →
      mainRun env now transport = ⟨1, [], [missingVarMsg], [], false⟩ ∧
      "B12_ACTION_RUN_LINK".data <:+: missingVarMsg.data) ∧
    (∀ link, env "B12_ACTION_RUN_LINK" = some link →
      ((env "B12_NAME" = none → (mkPayload env now link).name = "Donovan Piper") ∧
       (env "B12_EMAIL" = none →
         (mkPayload env now link).email = "do.piper.eng@outlook.com") ∧
       (env "B12_RESUME_LINK" = none →
         (mkPayload env now link).resume_link = "https://donovan-piper.netlify.app/") ∧
       (env "B12_REPOSITORY_LINK" = none →
         (mkPayload env now link).repository_link = "https://github.com/novancore") ∧
       (mainRun env now transport).requests = [theRequest s link env now])) := by
  constructor
  · intro hl
    refine ⟨by simp [mainRun, hs, hs2, hl], by decide⟩
  · intro link hl
    refine ⟨fun h => by simp [mkPayload, h], fun h => by simp [mkPayload, h],
            fun h => by simp [mkPayload, h], fun h => by simp [mkPayload, h],
            mainRun_requests_eq env now transport s link hs hs2 hl⟩

/-- Witness for the amended C5 at a concrete environment with no link. -/
theorem action_link_witness :
    envNoLink "B12_SIGNING_SECRET" = some "s3cr3t" ∧ "s3cr3t" ≠ "" ∧
    envNoLink "B12_ACTION_RUN_LINK" = none ∧
    (mainRun envNoLink dt0 (trOk "x") = ⟨1, [], [missingVarMsg], [], false⟩ ∧
     "B12_ACTION_RUN_LINK".data <:+: missingVarMsg.data) :=
  ⟨rfl, by decide, rfl,
   (action_link_spec envNoLink dt0 (trOk "x") "s3cr3t" rfl (by decide)).1 rfl⟩

/-- Claim C6: when the response body parses as a JSON object with `success`
equal to `true` and a `receipt` key, the run prints exactly one stdout line
`Submission receipt: <receipt>` and exits 0. -/
theorem success_receipt_spec (env : String → Option String) (now : DT)
    (transport : HttpRequest → HttpOutcome) (s link body : String)
    (kvs : List (String × Json)) (r : Json)
    (hs : env "B12_SIGNING_SECRET" = some s) (hs2 : s ≠ "")
    (hl : env "B12_ACTION_RUN_LINK" = some link)
    (ht : transport (theRequest s link env now) = .ok body)
    (hp : jsonParse body = some (.obj kvs))
    (hsucc : dictGet kvs "success" = some (.bool true))
    (hrec : dictGet kvs "receipt" = some r) :
    mainRun env now transport =
      ⟨0, ["Submission receipt: " ++ pyStr r], [], [theRequest s link env now], false⟩ := by
  simp [mainRun, hs, hs2, hl, ht, hp, hsucc, hrec]

/-- Witness for C6: the simulated body from the spec yields
`Submission receipt: ABC123` and exit code 0. -/
theorem success_receipt_witness :
    jsonParse "\x7b\"success\": true, \"receipt\": \"ABC123\"\x7d" =
      some (.obj [("success", Json.bool true), ("receipt", Json.str "ABC123")]) ∧
    mainRun envGood dt0 (trOk "\x7b\"success\": true, \"receipt\": \"ABC123\"\x7d") =
      ⟨0, ["Submission receipt: ABC123"], [],
       [theRequest "s3cr3t" "https://runs.example/1" envGood dt0], false⟩ := by
  refine ⟨by rfl, ?_⟩
  exact success_receipt_spec envGood dt0
    (trOk "\x7b\"success\": true, \"receipt\": \"ABC123\"\x7d") "s3cr3t"
    "https://runs.example/1" "\x7b\"success\": true, \"receipt\": \"ABC123\"\x7d"
    [("success", Json.bool true), ("receipt", Json.str "ABC123")] (Json.str "ABC123")
    rfl (by decide) rfl rfl (by rfl) rfl rfl

/-- Claim C7 (counterexample): the body `true` parses as a JSON value that is
not an object with `success`/`receipt`, and the run exits 1 - but it dies of
an uncaught `AttributeError` and never prints the raw response body to
stderr, refuting the claim as stated. -/
theorem nonobject_response_cx :
    jsonParse "true" = some (Json.bool true) ∧
    (mainRun envGood dt0 (trOk "true")).exitCode = 1 ∧
    (mainRun envGood dt0 (trOk "true")).stderr = [attrErrorLine (Json.bool true)] ∧
    "true" ∉ (mainRun envGood dt0 (trOk "true")).stderr ∧
    (mainRun envGood dt0 (trOk "true")).crashed = true := by
  refine ⟨by rfl, by decide, by decide, by decide, by decide⟩

/-- Claim C7 (amended): a body that fails to parse, or parses as a JSON
object without `success == true` and a `receipt` key, makes the run print the
raw body to stderr and exit 1; a body parsing to a non-object value instead
crashes the run with an uncaught `AttributeError` (still exit 1, traceback
on stderr rather than the raw body). -/
theorem bad_response_spec (env : String → Option String) (now : DT)
    (transport : HttpRequest → HttpOutcome) (s link body : String)
    (hs : env "B12_SIGNING_SECRET" = some s) (hs2 : s ≠ "")
    (hl : env "B12_ACTION_RUN_LINK" = some link)
    (ht : transport (theRequest s link env now) = .ok body) :
    (jsonParse body = none →
      mainRun env now transport =
        ⟨1, [], ["Invalid JSON response from server", body],
         [theRequest s link env now], false⟩) ∧
    (∀ kvs, jsonParse body = some (.obj kvs) →
      dictGet kvs "success" ≠ some (.bool true) ∨ dictGet kvs "receipt" = none →
      mainRun env now transport =
        ⟨1, [], ["Submission failed or unexpected response", body],
         [theRequest s link env now], false⟩) ∧
    (∀ v, jsonParse body = some v → (∀ kvs, v ≠ .obj kvs) →
      mainRun env now transport =
        ⟨1, [], [attrErrorLine v], [theRequest s link env now], true⟩) := by
  refine ⟨?_, ?_, ?_⟩
  · intro hp
    simp [mainRun, hs, hs2, hl, ht, hp]
  · intro kvs hp hno
    rcases hdg1 : dictGet kvs "success" with _ | v
    · simp [mainRun, hs, hs2, hl, ht, hp, hdg1]
    · rcases v with _ | b | lex | sv | xs | kvs2
      · simp [mainRun, hs, hs2, hl, ht, hp, hdg1]
      · rcases b with _ | _
        · simp [mainRun, hs, hs2, hl, ht, hp, hdg1]
        · rcases hno with hno | hno
          · exact absurd hdg1 hno
          · simp [mainRun, hs, hs2, hl, ht, hp, hdg1, hno]
      · simp [mainRun, hs, hs2, hl, ht, hp, hdg1]
      · simp [mainRun, hs, hs2, hl, ht, hp, hdg1]
      · simp [mainRun, hs, hs2, hl, ht, hp, hdg1]
      · simp [mainRun, hs, hs2, hl, ht, hp, hdg1]
  · intro v hp hnv
    rcases v with _ | b | lex | sv | xs | kvs2
    · simp [mainRun, hs, hs2, hl, ht, hp]
    · simp [mainRun, hs, hs2, hl, ht, hp]
    · simp [mainRun, hs, hs2, hl, ht, hp]
    · simp [mainRun, hs, hs2, hl, ht, hp]
    · simp [mainRun, hs, hs2, hl, ht, hp]
    · exact absurd rfl (hnv kvs2)

/-- Witness for the amended C7: the spec's simulated bodies `not-json` and
`success: false` both exit 1 with the raw body on stderr. -/
theorem bad_response_witness :
    jsonParse "not-json" = none ∧
    mainRun envGood dt0 (trOk "not-json") =
      ⟨1, [], ["Invalid JSON response from server", "not-json"],
       [theRequest "s3cr3t" "https://runs.example/1" envGood dt0], false⟩ ∧
    dictGet [("success", Json.bool false)] "receipt" = none ∧
    mainRun envGood dt0 (trOk "\x7b\"success\": false\x7d") =
      ⟨1, [], ["Submission failed or unexpected response", "\x7b\"success\": false\x7d"],
       [theRequest "s3cr3t" "https://runs.example/1" envGood dt0], false⟩ := by
  refine ⟨by rfl, ?_, rfl, ?_⟩
  · exact (bad_response_spec envGood dt0 (trOk "not-json") "s3cr3t"
      "https://runs.example/1" "not-json" rfl (by decide) rfl rfl).1 (by rfl)
  · exact (bad_response_spec envGood dt0 (trOk "\x7b\"success\": false\x7d") "s3cr3t"
      "https://runs.example/1" "\x7b\"success\": false\x7d" rfl (by decide) rfl rfl).2.1
      [("success", Json.bool false)] (by rfl) (Or.inr rfl)

/-- Claim C8: on an HTTP error response the run reports the status code and
reason on stderr, surfaces the readable response body, exits 1, and has
issued exactly one request - no retry. -/
theorem http_error_spec (env : String → Option String) (now : DT)
    (transport : HttpRequest → HttpOutcome) (s link reason : String) (code : Nat)
    (rbody : Option String)
    (hs : env "B12_SIGNING_SECRET" = some s) (hs2 : s ≠ "")
    (hl : env "B12_ACTION_RUN_LINK" = some link)
    (ht : transport (theRequest s link env now) = .httpError code reason rbody) :
    mainRun env now transport =
      ⟨1, [], ("HTTP error: " ++ Nat.repr code ++ " " ++ reason) :: rbody.toList,
       [theRequest s link env now], false⟩ := by
  simp [mainRun, hs, hs2, hl, ht]

/-- Witness for C8: a simulated HTTP 500 exits 1 printing code and reason. -/
theorem http_error_witness :
    trHttpErr (theRequest "s3cr3t" "https://runs.example/1" envGood dt0) =
      .httpError 500 "Internal Server Error" (some "server exploded") ∧
    mainRun envGood dt0 trHttpErr =
      ⟨1, [], ["HTTP error: 500 Internal Server Error", "server exploded"],
       [theRequest "s3cr3t" "https://runs.example/1" envGood dt0], false⟩ := by
  refine ⟨rfl, ?_⟩
  exact http_error_spec envGood dt0 trHttpErr "s3cr3t" "https://runs.example/1"
    "Internal Server Error" 500 (some "server exploded") rfl (by decide) rfl rfl

/-- Claim C9: every run that reaches the transport issues exactly one POST to
the fixed URL, with the JSON content-type header and an `X-Signature-256`
header computed by `compute_signature` over exactly the bytes sent as the
request body. -/
theorem single_request_spec (env : String → Option String) (now : DT)
    (transport : HttpRequest → HttpOutcome) (s link : String)
    (hs : env "B12_SIGNING_SECRET" = some s) (hs2 : s ≠ "")
    (hl : env "B12_ACTION_RUN_LINK" = some link) :
    (mainRun env now transport).requests = [theRequest s link env now] ∧
    theRequest s link env now =
      { url := "https://b12.io/apply/submission"
        method := "POST"
        headers := [("Content-Type", "application/json; charset=utf-8"),
          ("X-Signature-256", compute_signature s
            (utf8Encode (pyJsonDumps (payloadItems (mkPayload env now link)))))]
        data := utf8Encode (pyJsonDumps (payloadItems (mkPayload env now link))) } :=
  ⟨mainRun_requests_eq env now transport s link hs hs2 hl, rfl⟩

/-- Witness for C9 at a concrete environment and transport. -/
theorem single_request_witness :
    envGood "B12_SIGNING_SECRET" = some "s3cr3t" ∧ "s3cr3t" ≠ "" ∧
    envGood "B12_ACTION_RUN_LINK" = some "https://runs.example/1" ∧
    (mainRun envGood dt0 (trOk "x")).requests =
      [theRequest "s3cr3t" "https://runs.example/1" envGood dt0] ∧
    theRequest "s3cr3t" "https://runs.example/1" envGood dt0 =
      { url := "https://b12.io/apply/submission"
        method := "POST"
        headers := [("Content-Type", "application/json; charset=utf-8"),
          ("X-Signature-256", compute_signature "s3cr3t"
            (utf8Encode (pyJsonDumps (payloadItems
              (mkPayload envGood dt0 "https://runs.example/1")))))]
        data := utf8Encode (pyJsonDumps (payloadItems
          (mkPayload envGood dt0 "https://runs.example/1"))) } := by
  have h := single_request_spec envGood dt0 (trOk "x") "s3cr3t" "https://runs.example/1"
    rfl (by decide) rfl
  exact ⟨rfl, by decide, rfl, h.1, h.2⟩

/-- Claim C10: the two required variables are emptiness-checked differently -
a secret set to the empty string is treated as missing (exit 1, missing-secret
message, no request), while an action-run link set to the empty string is
accepted verbatim into the payload and the run proceeds to its one request. -/
theorem empty_values_spec (env : String → Option String) (now : DT)
    (transport : HttpRequest → HttpOutcome) :
    (env "B12_SIGNING_SECRET" = some "" →
      mainRun env now transport = ⟨1, [], ["Missing B12_SIGNING_SECRET"], [], false⟩) ∧
    (∀ s, env "B12_SIGNING_SECRET" = some s → s ≠ "" →
      env "B12_ACTION_RUN_LINK" = some "" →
      (mkPayload env now "").action_run_link = "" ∧
      (mainRun env now transport).requests = [theRequest s "" env now]) := by
  constructor
  · intro hs
    simp [mainRun, hs]
  · intro s hs hs2 hl
    exact ⟨rfl, mainRun_requests_eq env now transport s "" hs hs2 hl⟩

/-- Witness for C10 at concrete environments. -/
theorem empty_values_witness :
    envEmptySecret "B12_SIGNING_SECRET" = some "" ∧
    mainRun envEmptySecret dt0 (trOk "x") =
      ⟨1, [], ["Missing B12_SIGNING_SECRET"], [], false⟩ ∧
    envEmptyLink "B12_ACTION_RUN_LINK" = some "" ∧
    (mkPayload envEmptyLink dt0 "").action_run_link = "" ∧
    (mainRun envEmptyLink dt0 (trOk "x")).requests =
      [theRequest "s3cr3t" "" envEmptyLink dt0] := by
  have h := empty_values_spec envEmptySecret dt0 (trOk "x")
  have h2 := (empty_values_spec envEmptyLink dt0 (trOk "x")).2 "s3cr3t" rfl
    (by decide) rfl
  exact ⟨rfl, h.1 rfl, rfl, h2.1, h2.2⟩
